import Mathlib

/-!
Verification of the `lms_project` online-course platform against its
natural-language specification.

The Django application is shallowly embedded: database tables become lists
of records, the cache becomes the list of present keys, sessions become
explicit records, and each view function becomes a pure Lean function from
the request data and the current state to the new state together with the
HTTP outcome.  All definitions follow `src/learning/views.py`,
`src/auth_app/views.py` and `src/auth_app/signals.py`.
-/

namespace Lms

/-- A row of the `Lesson` table: `course` is the foreign key to its course
(`learning/models`, as used throughout `learning/views.py`). -/
structure Lesson where
  id : Nat
  course : Nat
  name : String
  preview : String
  deriving Repr, DecidableEq

/-- A row of the `Course` table; `authors` embeds the many-to-many relation
to author users as the list of user ids. -/
structure Course where
  id : Nat
  title : String
  description : String
  start_date : String
  authors : List Nat
  deriving Repr, DecidableEq

/-- A row of the `Tracking` table: the per-(user, lesson) completion record. -/
structure Tracking where
  lesson : Nat
  user : Nat
  passed : Bool
  deriving Repr, DecidableEq

/-- The database state touched by the claims: the three tables. -/
structure DB where
  courses : List Course
  lessons : List Lesson
  trackings : List Tracking
  deriving Repr, DecidableEq

/-- The cache, reduced to the list of keys currently present (the claims only
concern key presence and invalidation). -/
abbrev Cache := List String

/-- `cache.delete k`: the key `k` is removed. -/
def cacheDelete (c : Cache) (k : String) : Cache :=
  c.filter (fun k2 => k2 ≠ k)

/-- `cache.delete_many ks`: every key in `ks` is removed. -/
def cacheDeleteMany (c : Cache) (ks : List String) : Cache :=
  c.filter (fun k2 => k2 ∉ ks)

/-- The course a tracking row belongs to, obtained through its lesson
(the ORM lookup `lesson__course`). -/
def lessonCourse (db : DB) (lessonId : Nat) : Option Nat :=
  (db.lessons.find? (fun l => l.id = lessonId)).map (fun l => l.course)

/-- The tracking rows matched by
`Tracking.objects.filter(lesson__course=course_id, user=request.user)`. -/
def userCourseTrackings (db : DB) (user course : Nat) : List Tracking :=
  db.trackings.filter (fun t => t.user = user ∧ lessonCourse db t.lesson = some course)

/-- `Count('lesson__course')` over the filtered rows: the lesson and course
foreign keys are non-null, so this is the number of matched rows. -/
def certTotalPassed (db : DB) (user course : Nat) : Nat :=
  (userCourseTrackings db user course).length

/-- `Sum('passed')` over the filtered rows: `None` when no row matches,
otherwise the number of rows with `passed` set. -/
def certFactPassed (db : DB) (user course : Nat) : Option Nat :=
  match userCourseTrackings db user course with
  | [] => none
  | ts => some ((ts.filter (fun t => t.passed)).length)

/-- Outcome of `get_certificate_view`: whether the `get_certificate` signal
fired, and the body of the `HttpResponse`. -/
structure CertResult where
  issued : Bool
  response : String
  deriving Repr, DecidableEq

/-- `get_certificate_view` (`learning/views.py` lines 250-259): aggregate the
user's tracking rows for the course and issue the certificate exactly when
`total_passed == fact_passed` in Python, where the former is a number and the
latter may be `None`. -/
def get_certificate_view (db : DB) (user course : Nat) : CertResult :=
  if certFactPassed db user course = some (certTotalPassed db user course) then
    { issued := true, response := "Сертификат отправлен на Ваш email" }
  else
    { issued := false, response := "Вы не прошли полностью курс" }

/-- Outcome of the `enroll` view. -/
inductive EnrollResponse where
  | alreadyEnrolled
  | redirectTracking
  deriving Repr, DecidableEq

/-- Whether the `course_enroll` signal fired during `enroll`. -/
def EnrollResponse.signalFired : EnrollResponse → Bool
  | .alreadyEnrolled => false
  | .redirectTracking => true

/-- `Tracking.objects.filter(user=..., lesson__course=course_id).exists()`. -/
def enrollIsExisted (db : DB) (user course : Nat) : Bool :=
  db.trackings.any (fun t => t.user = user ∧ lessonCourse db t.lesson = some course)

/-- The rows bulk-created by `enroll`: one per lesson of the course, with
`passed=False`. -/
def enrollRecords (db : DB) (user course : Nat) : List Tracking :=
  (db.lessons.filter (fun l => l.course = course)).map
    (fun l => { lesson := l.id, user := user, passed := false })

/-- `enroll` (`learning/views.py` lines 194-209).  The whole body runs under
`@transaction.atomic`, which the embedding reflects by computing the new
database state in one pure step. -/
def enroll (db : DB) (user course : Nat) : DB × EnrollResponse :=
  if enrollIsExisted db user course then
    (db, .alreadyEnrolled)
  else
    ({ db with trackings := db.trackings ++ enrollRecords db user course },
     .redirectTracking)

/-- The fields a `CourseForm` submits. -/
structure CourseFormData where
  title : String
  description : String
  start_date : String
  deriving Repr, DecidableEq

/-- The requesting user as `LoginRequiredMixin` / `PermissionRequiredMixin`
see it: identity, authentication flag and the codenames of held permissions. -/
structure UserCtx where
  id : Nat
  is_authenticated : Bool
  perms : List String
  deriving Repr, DecidableEq

/-- Application state threaded through the course views: database plus cache. -/
structure St where
  db : DB
  cache : Cache
  deriving Repr, DecidableEq

/-- HTTP-level outcome of a class-based view guarded by the auth mixins. -/
inductive ViewOutcome where
  | redirectLogin
  | permissionDenied
  | notFound
  | success (url : String)
  deriving Repr, DecidableEq

/-- The autoincremented primary key the ORM assigns to a newly saved course. -/
def nextCourseId (db : DB) : Nat :=
  (db.courses.map (fun c => c.id)).foldr max 0 + 1

/-- `CourseCreateView` (`learning/views.py` lines 81-94): requires login and
`learning.add_course`; `form_valid` runs under `transaction.atomic`, saves the
course, adds the requesting user to its authors, deletes the `courses` cache
key and redirects to lesson creation. -/
def courseCreateView (user : UserCtx) (form : CourseFormData) (st : St) :
    St × ViewOutcome :=
  if ¬ user.is_authenticated then (st, .redirectLogin)
  else if "learning.add_course" ∉ user.perms then (st, .permissionDenied)
  else
    let cid := nextCourseId st.db
    let course : Course :=
      { id := cid, title := form.title, description := form.description,
        start_date := form.start_date, authors := [user.id] }
    ({ db := { st.db with courses := st.db.courses ++ [course] },
       cache := cacheDelete st.cache "courses" },
     .success s!"create_lesson/{cid}")

/-- `CourseUpdateView` (`learning/views.py` lines 97-109): requires login and
`learning.change_course`; its queryset is `Course.objects.filter(id=course_id)`
with no author restriction, and the class overrides no cache behaviour. -/
def courseUpdateView (user : UserCtx) (course_id : Nat) (form : CourseFormData)
    (st : St) : St × ViewOutcome :=
  if ¬ user.is_authenticated then (st, .redirectLogin)
  else if "learning.change_course" ∉ user.perms then (st, .permissionDenied)
  else if (st.db.courses.find? (fun c => c.id = course_id)).isSome then
    ({ st with db := { st.db with courses := st.db.courses.map (fun c =>
        if c.id = course_id then
          { c with title := form.title, description := form.description,
                   start_date := form.start_date }
        else c) } },
     .success s!"detail/{course_id}")
  else (st, .notFound)

/-- `CourseDeleteView` (`learning/views.py` lines 112-127): requires login and
`learning.delete_course`; `form_valid` removes the `courses` and the course's
lesson-list cache keys with `delete_many` and then deletes the object. -/
def courseDeleteView (user : UserCtx) (course_id : Nat) (st : St) :
    St × ViewOutcome :=
  if ¬ user.is_authenticated then (st, .redirectLogin)
  else if "learning.delete_course" ∉ user.perms then (st, .permissionDenied)
  else if (st.db.courses.find? (fun c => c.id = course_id)).isSome then
    ({ db := { st.db with courses := st.db.courses.filter (fun c => c.id ≠ course_id) },
       cache := cacheDeleteMany st.cache ["courses", s!"course_{course_id}_lessons"] },
     .success "index")
  else (st, .notFound)

/-- `request.POST.get(k)` / `request.COOKIES.get(k)`: association lookup. -/
def formGet (kvs : List (String × String)) (k : String) : Option String :=
  (kvs.find? (fun kv => kv.fst = k)).map (fun kv => kv.snd)

/-- `SettingFormView.post` (`learning/views.py` lines 167-173): the cookies the
redirect response carries; the view always sets `paginate_by` to the value
submitted in the POST body. -/
def settingFormPost (post : List (String × String)) : List (String × Option String) :=
  [("paginate_by", formGet post "paginate_by")]

/-- The page size `MainView` hands to the paginator: either the raw cookie
string or the integer default `5`. -/
inductive PageSize where
  | fromCookie (v : String)
  | dflt (n : Nat)
  deriving Repr, DecidableEq

/-- `MainView.get_paginate_by` (`learning/views.py` lines 51-52):
`self.request.COOKIES.get('paginate_by', 5)`. -/
def get_paginate_by (cookies : List (String × String)) : PageSize :=
  match formGet cookies "paginate_by" with
  | some v => .fromCookie v
  | none => .dflt 5

/-- The session fields `UserLoginView.form_valid` touches: the timestamp stored
under `settings.REMEMBER_KEY` and the session expiry (`none` keeps the
framework default). -/
structure LoginSession where
  rememberStamp : Option String
  expiry : Option Int
  deriving Repr, DecidableEq

/-- `UserLoginView.form_valid` (`auth_app/views.py` lines 18-29), with the
deployment constant `settings.REMEMBER_AGE` passed as a parameter and `now`
the current timestamp string. -/
def userLoginFormValid (REMEMBER_AGE : Int) (is_remember : Option String)
    (now : String) (s : LoginSession) : LoginSession :=
  if is_remember = some "on" then
    { s with rememberStamp := some now, expiry := some REMEMBER_AGE }
  else if is_remember = some "off" then
    { s with expiry := some 0 }
  else s

/-- Python `list.remove` minus its error case: delete the first occurrence. -/
def listRemoveFirst (l : List Nat) (x : Nat) : List Nat :=
  match l with
  | [] => []
  | y :: ys => if y = x then ys else y :: listRemoveFirst ys x

/-- The Python exceptions `remove_booking` can raise. -/
inductive PyError where
  | attributeError
  | valueError
  deriving Repr, DecidableEq

/-- `remove_booking` on a POST request (`learning/views.py` lines 242-247):
`request.session.get('favourites')` yields `None` when the key is absent, so
`.remove` raises `AttributeError`; `list.remove` raises `ValueError` when the
id is not in the list; otherwise the first occurrence is removed and the view
redirects to the index with the updated favourites list. -/
def remove_booking (favourites : Option (List Nat)) (course_id : Nat) :
    Except PyError (List Nat) :=
  match favourites with
  | none => .error .attributeError
  | some l =>
    if course_id ∈ l then .ok (listRemoveFirst l course_id)
    else .error .valueError

/-- `add_booking` on a POST request (`learning/views.py` lines 232-239):
append the id to the session favourites, starting from the empty list when
the key is absent. -/
def add_booking (favourites : Option (List Nat)) (course_id : Nat) : List Nat :=
  favourites.getD [] ++ [course_id]

/-- A row of the framework `Group` table. -/
structure Group where
  id : Nat
  name : String
  deriving Repr, DecidableEq

/-- A user's group membership, as `instance.groups` sees it. -/
structure UserRow where
  id : Nat
  groups : List Nat
  deriving Repr, DecidableEq

/-- `grant_pupil_rights` (`auth_app/signals.py` lines 28-32): on `post_save`
with `created` true, set the saved user's groups to the queryset
`Group.objects.filter(name='Ученик')`; otherwise do nothing. -/
def grant_pupil_rights (allGroups : List Group) (created : Bool) (u : UserRow) :
    UserRow :=
  if created then
    { u with groups := (allGroups.filter (fun g => g.name = "Ученик")).map (fun g => g.id) }
  else u

/-- Concrete database used to instantiate the certificate theorem: one course,
one lesson, one failing tracking row. -/
def dbC1 : DB :=
  { courses := [{ id := 1, title := "c", description := "", start_date := "", authors := [] }],
    lessons := [{ id := 1, course := 1, name := "l", preview := "" }],
    trackings := [{ lesson := 1, user := 1, passed := false }] }

/-- Concrete database for the enrollment theorems: a course with two lessons
and no tracking rows yet. -/
def dbC2 : DB :=
  { courses := [{ id := 1, title := "c", description := "", start_date := "", authors := [2] }],
    lessons := [{ id := 1, course := 1, name := "l1", preview := "" },
                { id := 2, course := 1, name := "l2", preview := "" }],
    trackings := [] }

theorem certFact_eq_total_iff (db : DB) (u c : Nat) :
    certFactPassed db u c = some (certTotalPassed db u c) ↔
      userCourseTrackings db u c ≠ [] ∧
      ∀ t ∈ userCourseTrackings db u c, t.passed = true := by
  unfold certFactPassed certTotalPassed
  cases h : userCourseTrackings db u c with
  | nil => simp
  | cons a as =>
    simp only [ne_eq, reduceCtorEq, not_false_eq_true, true_and, Option.some.injEq]
    exact List.filter_length_eq_length

/-- C1: the certificate endpoint fires the signal and responds with success
only when every tracking row of the user for the course is passed; when some
row is not passed it responds that the course is not completed and the signal
does not fire. -/
theorem C1_certificate_gate (db : DB) (u c : Nat) :
    ((get_certificate_view db u c).issued = true →
        ∀ t ∈ userCourseTrackings db u c, t.passed = true) ∧
    ((∃ t ∈ userCourseTrackings db u c, t.passed = false) →
        (get_certificate_view db u c).issued = false ∧
        (get_certificate_view db u c).response = "Вы не прошли полностью курс") := by
  constructor
  · intro hiss
    by_cases hc : certFactPassed db u c = some (certTotalPassed db u c)
    · exact ((certFact_eq_total_iff db u c).mp hc).2
    · unfold get_certificate_view at hiss
      simp [hc] at hiss
  · rintro ⟨t, ht, hp⟩
    have hc : certFactPassed db u c ≠ some (certTotalPassed db u c) := by
      intro hc
      have hall := ((certFact_eq_total_iff db u c).mp hc).2 t ht
      rw [hall] at hp
      cases hp
    unfold get_certificate_view
    simp [hc]

theorem C1_certificate_gate_witness :
    (get_certificate_view dbC1 1 1).issued = false ∧
    (get_certificate_view dbC1 1 1).response = "Вы не прошли полностью курс" :=
  (C1_certificate_gate dbC1 1 1).2
    ⟨{ lesson := 1, user := 1, passed := false }, by decide, rfl⟩

/-- C2: when the user is not yet enrolled, `enroll` leaves courses and lessons
untouched and appends, in one atomic state update, exactly the bulk-created
rows: one per lesson of the course, for that user, with `passed` false. -/
theorem C2_enroll_bulk (db : DB) (u c : Nat)
    (h : enrollIsExisted db u c = false) :
    (enroll db u c).1.courses = db.courses ∧
    (enroll db u c).1.lessons = db.lessons ∧
    (enroll db u c).1.trackings
      = db.trackings
        ++ (db.lessons.filter (fun l => l.course = c)).map
             (fun l => { lesson := l.id, user := u, passed := false }) ∧
    (enroll db u c).2 = .redirectTracking := by
  unfold enroll
  simp [h, enrollRecords]

theorem C2_enroll_bulk_witness :
    (enroll dbC2 1 1).1.trackings
      = dbC2.trackings
        ++ (dbC2.lessons.filter (fun l => l.course = 1)).map
             (fun l => { lesson := l.id, user := 1, passed := false }) :=
  (C2_enroll_bulk dbC2 1 1 (by decide)).2.2.1

/-- C3: a user already tracked against some lesson of the course gets the
already-enrolled response from `enroll`; the database is unchanged and the
`course_enroll` signal does not fire. -/
theorem C3_enroll_no_double (db : DB) (u c : Nat)
    (h : ∃ t ∈ db.trackings, t.user = u ∧ lessonCourse db t.lesson = some c) :
    enroll db u c = (db, .alreadyEnrolled) ∧
    (enroll db u c).2.signalFired = false := by
  have hex : enrollIsExisted db u c = true := by
    rcases h with ⟨t, ht, h1, h2⟩
    unfold enrollIsExisted
    rw [List.any_eq_true]
    exact ⟨t, ht, by simp [h1, h2]⟩
  refine ⟨by simp [enroll, hex], ?_⟩
  simp [enroll, hex, EnrollResponse.signalFired]

theorem C3_enroll_no_double_witness :
    enroll dbC1 1 1 = (dbC1, .alreadyEnrolled) :=
  (C3_enroll_no_double dbC1 1 1
    ⟨{ lesson := 1, user := 1, passed := false }, by decide, by decide⟩).1

/-- A user who holds `learning.change_course` but is not an author of any
course. -/
def c4User : UserCtx := { id := 3, is_authenticated := true, perms := ["learning.change_course"] }

/-- A course authored by user 2 only. -/
def c4Course : Course :=
  { id := 1, title := "old", description := "d", start_date := "2024-01-01", authors := [2] }

/-- State holding only `c4Course`, with the course list cached. -/
def c4St : St :=
  { db := { courses := [c4Course], lessons := [], trackings := [] },
    cache := ["courses", "course_1_lessons"] }

/-- The update submitted by the non-author. -/
def c4Form : CourseFormData :=
  { title := "new", description := "d", start_date := "2024-01-01" }

/-- C4 as stated is false: user 3 is not among the authors of course 1, yet
the update view modifies the course because `CourseUpdateView` checks only
the `learning.change_course` permission and never authorship. -/
theorem C4_counterexample :
    c4User.id ∉ c4Course.authors ∧
    (courseUpdateView c4User 1 c4Form c4St).2 = .success "detail/1" ∧
    (courseUpdateView c4User 1 c4Form c4St).1.db ≠ c4St.db := by decide

/-- C4 amended: editing a course requires being authenticated and holding the
`learning.change_course` permission; a user lacking either cannot modify any
state, but authorship is not checked. -/
theorem C4_update_requires_permission (user : UserCtx) (cid : Nat)
    (form : CourseFormData) (st : St)
    (h : user.is_authenticated = false ∨ "learning.change_course" ∉ user.perms) :
    (courseUpdateView user cid form st).1 = st := by
  unfold courseUpdateView
  rcases h with h | h
  · simp [h]
  · simp [h]
    split <;> rfl

theorem C4_update_requires_permission_witness :
    (courseUpdateView { id := 3, is_authenticated := true, perms := [] } 1 c4Form c4St).1
      = c4St :=
  C4_update_requires_permission _ 1 c4Form c4St (Or.inr (by decide))

/-- A user holding all three course permissions, used to exercise the cache
theorems. -/
def c5User : UserCtx :=
  { id := 2, is_authenticated := true,
    perms := ["learning.add_course", "learning.change_course", "learning.delete_course"] }

/-- C5 as stated is false for updates: a successful course update leaves the
`courses` cache key in place, because `CourseUpdateView` performs no cache
invalidation. -/
theorem C5_counterexample :
    (courseUpdateView c5User 1 c4Form c4St).2 = .success "detail/1" ∧
    "courses" ∈ (courseUpdateView c5User 1 c4Form c4St).1.cache := by decide

/-- C5 amended: a successful course creation removes the `courses` cache key;
a successful course deletion removes both the `courses` key and the deleted
course's lesson-list key; a course update never touches the cache. -/
theorem C5_cache_invalidation (user : UserCtx) (form : CourseFormData)
    (cid : Nat) (st : St) :
    (∀ url, (courseCreateView user form st).2 = .success url →
        "courses" ∉ (courseCreateView user form st).1.cache) ∧
    (∀ url, (courseDeleteView user cid st).2 = .success url →
        "courses" ∉ (courseDeleteView user cid st).1.cache ∧
        s!"course_{cid}_lessons" ∉ (courseDeleteView user cid st).1.cache) ∧
    (courseUpdateView user cid form st).1.cache = st.cache := by
  refine ⟨?_, ?_, ?_⟩
  · intro url hurl
    unfold courseCreateView at hurl ⊢
    split at hurl
    · cases hurl
    · split at hurl
      · cases hurl
      · simp_all [cacheDelete, List.mem_filter]
  · intro url hurl
    unfold courseDeleteView at hurl ⊢
    split at hurl
    · cases hurl
    · split at hurl
      · cases hurl
      · split at hurl
        · simp_all [cacheDeleteMany, List.mem_filter]
        · cases hurl
  · unfold courseUpdateView
    split
    · rfl
    · split
      · rfl
      · split <;> rfl

theorem C5_cache_invalidation_witness :
    "courses" ∉ (courseCreateView c5User c4Form c4St).1.cache ∧
    ("courses" ∉ (courseDeleteView c5User 1 c4St).1.cache ∧
      "course_1_lessons" ∉ (courseDeleteView c5User 1 c4St).1.cache) ∧
    (courseUpdateView c5User 1 c4Form c4St).1.cache = c4St.cache :=
  ⟨(C5_cache_invalidation c5User c4Form 1 c4St).1 _ rfl,
   (C5_cache_invalidation c5User c4Form 1 c4St).2.1 _ rfl,
   (C5_cache_invalidation c5User c4Form 1 c4St).2.2⟩

/-- C6: saving a freshly created user sets its groups to exactly the default
`Ученик` group (when that group exists uniquely in the table), and saves of
already-existing users (`created` false) leave the user untouched. -/
theorem C6_grant_pupil_rights (allGroups : List Group) (g : Group) (u v : UserRow)
    (hg : allGroups.filter (fun x => x.name = "Ученик") = [g]) :
    (grant_pupil_rights allGroups true u).groups = [g.id] ∧
    grant_pupil_rights allGroups false v = v := by
  constructor
  · unfold grant_pupil_rights
    simp [hg]
  · rfl

theorem C6_grant_pupil_rights_witness :
    (grant_pupil_rights [{ id := 7, name := "Ученик" }] true { id := 1, groups := [] }).groups
        = [7] ∧
    grant_pupil_rights [{ id := 7, name := "Ученик" }] false { id := 2, groups := [9] }
        = { id := 2, groups := [9] } :=
  C6_grant_pupil_rights [{ id := 7, name := "Ученик" }] { id := 7, name := "Ученик" }
    { id := 1, groups := [] } { id := 2, groups := [9] } (by decide)

/-- C7: on a successful login, submitting `is_remember = on` stores the
remember timestamp in the session and sets the session expiry to
`REMEMBER_AGE`; submitting `is_remember = off` sets the expiry to `0`. -/
theorem C7_remember_me (AGE : Int) (now : String) (s : LoginSession) :
    userLoginFormValid AGE (some "on") now s
      = { rememberStamp := some now, expiry := some AGE } ∧
    userLoginFormValid AGE (some "off") now s = { s with expiry := some 0 } := by
  constructor <;> rfl

/-- C8: a POST to the settings view sets the `paginate_by` cookie to the
submitted value, and the course list paginates by the cookie's value, using
the default page size `5` when the cookie is absent. -/
theorem C8_pagination_cookie (post cookies : List (String × String)) (v : String) :
    (formGet post "paginate_by" = some v →
        settingFormPost post = [("paginate_by", some v)]) ∧
    (formGet cookies "paginate_by" = some v →
        get_paginate_by cookies = .fromCookie v) ∧
    (formGet cookies "paginate_by" = none →
        get_paginate_by cookies = .dflt 5) := by
  refine ⟨?_, ?_, ?_⟩ <;> intro h <;> simp [settingFormPost, get_paginate_by, h]

theorem C8_pagination_cookie_witness :
    settingFormPost [("paginate_by", "10")] = [("paginate_by", some "10")] ∧
    get_paginate_by [("paginate_by", "10")] = .fromCookie "10" ∧
    get_paginate_by [("theme", "dark")] = .dflt 5 :=
  ⟨(C8_pagination_cookie [("paginate_by", "10")] [] "10").1 (by decide),
   (C8_pagination_cookie [] [("paginate_by", "10")] "10").2.1 (by decide),
   (C8_pagination_cookie [] [("theme", "dark")] "10").2.2 (by decide)⟩

theorem listRemoveFirst_spec (l : List Nat) (x : Nat) (hx : x ∈ l) :
    ∃ l1 l2, l = l1 ++ x :: l2 ∧ x ∉ l1 ∧ listRemoveFirst l x = l1 ++ l2 := by
  induction l with
  | nil => cases hx
  | cons y ys ih =>
    by_cases hyx : y = x
    · subst hyx
      exact ⟨[], ys, rfl, by simp, by simp [listRemoveFirst]⟩
    · have hx2 : x ∈ ys := by
        rcases List.mem_cons.mp hx with h | h
        · exact absurd h.symm hyx
        · exact h
      rcases ih hx2 with ⟨l1, l2, he, hn, hr⟩
      refine ⟨y :: l1, l2, by simp [he], ?_, by simp [listRemoveFirst, hyx, hr]⟩
      simp only [List.mem_cons, not_or]
      exact ⟨fun hxy => hyx hxy.symm, hn⟩

/-- C9: removing a favourite is partial: with no `favourites` key in the
session it raises `AttributeError`; with the id absent from the list it raises
`ValueError`; it succeeds exactly when the id is present, removing the first
occurrence. -/
theorem C9_remove_booking_guard (l : List Nat) (cid : Nat) :
    remove_booking none cid = .error .attributeError ∧
    (cid ∉ l → remove_booking (some l) cid = .error .valueError) ∧
    (cid ∈ l → ∃ l1 l2, l = l1 ++ cid :: l2 ∧ cid ∉ l1 ∧
        remove_booking (some l) cid = .ok (l1 ++ l2)) := by
  refine ⟨rfl, ?_, ?_⟩
  · intro h
    simp [remove_booking, h]
  · intro h
    rcases listRemoveFirst_spec l cid h with ⟨l1, l2, he, hn, hr⟩
    exact ⟨l1, l2, he, hn, by simp [remove_booking, h, hr]⟩

theorem C9_remove_booking_guard_witness :
    remove_booking none 2 = .error .attributeError ∧
    remove_booking (some [1]) 2 = .error .valueError ∧
    (∃ l1 l2, ([1, 2, 2] : List Nat) = l1 ++ 2 :: l2 ∧ 2 ∉ l1 ∧
        remove_booking (some [1, 2, 2]) 2 = .ok (l1 ++ l2)) :=
  ⟨(C9_remove_booking_guard [] 2).1,
   (C9_remove_booking_guard [1] 2).2.1 (by decide),
   (C9_remove_booking_guard [1, 2, 2] 2).2.2 (by decide)⟩

/-- C10: a successful course creation appends exactly one course carrying the
submitted fields, whose authors contain the requesting user; the course save,
author assignment and cache invalidation happen in the same atomic state
update (the view body runs under `transaction.atomic`). -/
theorem C10_create_author (user : UserCtx) (form : CourseFormData) (st : St)
    (hauth : user.is_authenticated = true)
    (hperm : "learning.add_course" ∈ user.perms) :
    ∃ course : Course,
      (courseCreateView user form st).1.db.courses = st.db.courses ++ [course] ∧
      user.id ∈ course.authors ∧
      course.title = form.title ∧
      course.description = form.description ∧
      (courseCreateView user form st).1.cache = cacheDelete st.cache "courses" ∧
      (courseCreateView user form st).2 = .success s!"create_lesson/{course.id}" := by
  unfold courseCreateView
  simp [hauth, hperm]

theorem C10_create_author_witness :
    ∃ course : Course,
      (courseCreateView c5User c4Form c4St).1.db.courses
          = c4St.db.courses ++ [course] ∧
      c5User.id ∈ course.authors ∧
      course.title = c4Form.title ∧
      course.description = c4Form.description ∧
      (courseCreateView c5User c4Form c4St).1.cache = cacheDelete c4St.cache "courses" ∧
      (courseCreateView c5User c4Form c4St).2 = .success s!"create_lesson/{course.id}" :=
  C10_create_author c5User c4Form c4St (by decide) (by decide)

end Lms
